import Mathlib

/-!
Shallow embedding of the AdiOS ecosystem-integration module
(`src/src/integration/adios_integration.rs`) of the
`tridentbiz/adios-smart-labeling` repository, together with proofs about the
lifecycle, health and sync behaviour of `AdiosPlugin`.

Modelling conventions:
* `chrono::DateTime<chrono::Utc>` timestamps are modelled as `Int` (seconds);
  `chrono::Utc::now()` is modelled by passing the current time explicitly as a
  `now : Int` argument to the operations that read the clock.
* `Duration::num_minutes()` truncates toward zero, like Rust `i64` division,
  so it is modelled by `Int.div _ 60`.
* `Arc<AppContext>` and `Arc<EventBus>` are opaque host capabilities; only
  their presence (`Option`) matters to the code, so they are modelled as
  `Unit` handles.
* `PluginResult<T>` is `Result<T, PluginError>`, modelled as `Except`.
* `tracing` log statements have no effect on state and are omitted.
-/

namespace Adios

/-- `adios_core::plugin::PluginCategory` (the closed set of categories used by
`create_plugin_info_from_manifest`). -/
inductive PluginCategory where
  | Productivity
  | Core
  | Integration
  | Communication
  | Wellness
  | Display
  | Other
deriving DecidableEq, Repr

/-- `adios_core::plugin::PluginInfo`: immutable unit identity. -/
structure PluginInfo where
  id : String
  name : String
  version : String
  description : String
  author : String
  category : PluginCategory
deriving DecidableEq, Repr

/-- `adios_core::plugin::PluginError` (only the variants this module uses or
the spec names: `InitError` appears in `create_plugin_info_from_manifest`,
`StateError` is the illegal-state error of the spec's taxonomy). -/
inductive PluginError where
  | InitError : String → PluginError
  | StateError : String → PluginError
deriving DecidableEq, Repr

/-- `PluginResult<T> = Result<T, PluginError>`. -/
abbrev PluginResult (α : Type) := Except PluginError α

/-- `HealthStatus` from `adios_integration.rs` lines 21-26. -/
inductive HealthStatus where
  | Healthy : HealthStatus
  | Warning : String → HealthStatus
  | Error : String → HealthStatus
deriving DecidableEq, Repr

/-- `PluginState` from `adios_integration.rs` lines 13-19. -/
structure PluginState where
  initialized : Bool
  active : Bool
  last_sync : Option Int
  health_status : HealthStatus
deriving DecidableEq, Repr

/-- Opaque host context capability (`Arc<AppContext>`). -/
abbrev AppContext := Unit

/-- Opaque event-bus capability (`Arc<EventBus>`). -/
abbrev EventBus := Unit

/-- A schema-free structured value, modelling `serde_json::Value`. -/
inductive JsonValue where
  | null : JsonValue
  | bool : Bool → JsonValue
  | num : Int → JsonValue
  | str : String → JsonValue
  | arr : List JsonValue → JsonValue
  | obj : List (String × JsonValue) → JsonValue

/-- `AdiosPlugin` from `adios_integration.rs` lines 29-34. -/
structure AdiosPlugin where
  info : PluginInfo
  state : PluginState
  ctx : Option AppContext
  bus : Option EventBus
deriving DecidableEq, Repr

namespace AdiosPlugin

/-- `AdiosPlugin::new` (lines 37-49): the freshly constructed unit. -/
def new (info : PluginInfo) : AdiosPlugin :=
  { info := info
    state :=
      { initialized := false
        active := false
        last_sync := none
        health_status := HealthStatus.Healthy }
    ctx := none
    bus := none }

/-- `AdiosPlugin::update_health` (lines 57-59): unconditional overwrite. -/
def update_health (p : AdiosPlugin) (st : HealthStatus) : AdiosPlugin :=
  { p with state := { p.state with health_status := st } }

/-- `AdiosPlugin::sync_with_ecosystem` (lines 62-71): if an event-bus handle
is present, stamp `last_sync` with the current time; otherwise do nothing.
Always returns `Ok(())`. -/
def sync_with_ecosystem (p : AdiosPlugin) (now : Int) :
    AdiosPlugin × PluginResult Unit :=
  match p.bus with
  | some _ => ({ p with state := { p.state with last_sync := some now } }, Except.ok ())
  | none => (p, Except.ok ())

/-- `AdiosPlugin::handle_plugin_message` (lines 74-78): takes `&self` (no
mutation possible), logs, and returns `Ok(json!({"status": "received"}))`. -/
def handle_plugin_message (_p : AdiosPlugin) (_fromId : String)
    (_message : JsonValue) : PluginResult JsonValue :=
  Except.ok (JsonValue.obj [("status", JsonValue.str "received")])

/-- `AdiosPlugin::register_capabilities` (lines 81-88): takes `&self`; logs if
a context is present; always returns `Ok(())`. -/
def register_capabilities (_p : AdiosPlugin) : PluginResult Unit :=
  Except.ok ()

/-- `Plugin::init` for `AdiosPlugin` (lines 97-108): store the context and bus
handles, set `initialized`, then register capabilities (propagating its
result with `?`). -/
def init (p : AdiosPlugin) (ctx : AppContext) (bus : EventBus) :
    AdiosPlugin × PluginResult Unit :=
  let p1 : AdiosPlugin :=
    { p with
      ctx := some ctx
      bus := some bus
      state := { p.state with initialized := true } }
  match register_capabilities p1 with
  | Except.ok _ => (p1, Except.ok ())
  | Except.error e => (p1, Except.error e)

/-- `Plugin::start` for `AdiosPlugin` (lines 110-119): unconditionally set
`active = true`, then sync with the ecosystem (propagating its result). -/
def start (p : AdiosPlugin) (now : Int) : AdiosPlugin × PluginResult Unit :=
  let p1 : AdiosPlugin := { p with state := { p.state with active := true } }
  let r := sync_with_ecosystem p1 now
  match r.2 with
  | Except.ok _ => (r.1, Except.ok ())
  | Except.error e => (r.1, Except.error e)

/-- `Plugin::stop` for `AdiosPlugin` (lines 121-127): unconditionally set
`active = false` and return `Ok(())`. -/
def stop (p : AdiosPlugin) : AdiosPlugin × PluginResult Unit :=
  ({ p with state := { p.state with active := false } }, Except.ok ())

/-- `Duration::num_minutes()` of a duration of `secs` seconds: whole minutes,
truncating toward zero (Rust `i64` division). -/
def num_minutes (secs : Int) : Int :=
  Int.tdiv secs 60

/-- `Plugin::tick` for `AdiosPlugin` (lines 129-142): while active, if
`last_sync` is `Some(t)` and at least 5 whole minutes have elapsed, sync;
in every other case do nothing. Note the `if let Some(last_sync)` means a
`none` `last_sync` performs no sync. -/
def tick (p : AdiosPlugin) (now : Int) : AdiosPlugin × PluginResult Unit :=
  if p.state.active then
    match p.state.last_sync with
    | some t =>
        if num_minutes (now - t) ≥ 5 then
          let r := sync_with_ecosystem p now
          match r.2 with
          | Except.ok _ => (r.1, Except.ok ())
          | Except.error e => (r.1, Except.error e)
        else (p, Except.ok ())
    | none => (p, Except.ok ())
  else (p, Except.ok ())

/-- `Plugin::is_healthy` for `AdiosPlugin` (lines 144-146):
`matches!(self.state.health_status, HealthStatus::Healthy)`. -/
def is_healthy (p : AdiosPlugin) : Bool :=
  match p.state.health_status with
  | HealthStatus.Healthy => true
  | _ => false

/-- `Plugin::status` for `AdiosPlugin` (lines 148-154). -/
def status (p : AdiosPlugin) : String :=
  match p.state.health_status with
  | HealthStatus.Healthy => "Healthy"
  | HealthStatus.Warning msg => "Warning: " ++ msg
  | HealthStatus.Error msg => "Error: " ++ msg

end AdiosPlugin

/-- One lifecycle operation the host may invoke on the unit. Operations that
read the clock carry their `now`; `init` carries the (opaque) capabilities. -/
inductive LifecycleOp where
  | opInit : LifecycleOp
  | opStart : Int → LifecycleOp
  | opStop : LifecycleOp
  | opTick : Int → LifecycleOp
  | opUpdateHealth : HealthStatus → LifecycleOp
  | opHandleMessage : String → JsonValue → LifecycleOp

/-- Apply one lifecycle operation to the unit, keeping the resulting state
(results are discarded; `handle_plugin_message` takes `&self` in the source,
so it cannot change the state). -/
def applyOp (p : AdiosPlugin) : LifecycleOp → AdiosPlugin
  | LifecycleOp.opInit => (p.init () ()).1
  | LifecycleOp.opStart now => (p.start now).1
  | LifecycleOp.opStop => p.stop.1
  | LifecycleOp.opTick now => (p.tick now).1
  | LifecycleOp.opUpdateHealth h => p.update_health h
  | LifecycleOp.opHandleMessage _ _ => p

/-- Run a sequence of lifecycle operations from a given unit. -/
def run (p : AdiosPlugin) (ops : List LifecycleOp) : AdiosPlugin :=
  ops.foldl applyOp p

/-- `true` when no `start` operation occurs before the first `init`
operation of the sequence. -/
def noStartBeforeInit : List LifecycleOp → Bool
  | [] => true
  | op :: rest =>
    match op with
    | LifecycleOp.opInit => true
    | LifecycleOp.opStart _ => false
    | _ => noStartBeforeInit rest

/-- A concrete unit identity, used for concrete executions. -/
def testInfo : PluginInfo :=
  { id := "adios-smart-labeling"
    name := "AdiOS Smart Labeling"
    version := "0.1.0"
    description := "AI-powered smart labeling"
    author := "TridentBiz"
    category := PluginCategory.Productivity }

/-- The `[plugin]` table of an `adios-plugin.toml` manifest, as consumed by
`create_plugin_info_from_manifest` (lines 158-188): each field is read with
`get(..).and_then(|v| v.as_str())`, hence `Option`al. -/
structure PluginManifestSection where
  name : Option String
  version : Option String
  description : Option String
  author : Option String
  category : Option String
deriving DecidableEq, Repr

/-- A parsed manifest document: the `[plugin]` table, if present. The model
starts from the already-parsed TOML value; file-read and TOML-parse failures
(both mapped to `InitError` in the source) occur before this point. -/
structure Manifest where
  plugin : Option PluginManifestSection
deriving DecidableEq, Repr

/-- The category-string match of `create_plugin_info_from_manifest`
(lines 176-184): six recognized strings, catch-all `Other`. -/
def categoryOfStr (s : String) : PluginCategory :=
  if s = "productivity" then PluginCategory.Productivity
  else if s = "development" then PluginCategory.Core
  else if s = "enterprise" then PluginCategory.Integration
  else if s = "communication" then PluginCategory.Communication
  else if s = "wellness" then PluginCategory.Wellness
  else if s = "display" then PluginCategory.Display
  else PluginCategory.Other

/-- `create_plugin_info_from_manifest` (lines 158-188), from the parsed
manifest onward: a missing `[plugin]` table is an `InitError`; otherwise the
identity is built with the source's fallbacks (`id`/`name` from `name` with
fallbacks `"unknown"`/`"Unknown Plugin"`, `version` fallback `"0.1.0"`,
`description`/`author` fallback `""`, `category` fallback `"other"` mapped
through `categoryOfStr`). -/
def create_plugin_info_from_manifest (m : Manifest) : PluginResult PluginInfo :=
  match m.plugin with
  | none => Except.error (PluginError.InitError "No [plugin] section in manifest")
  | some ps =>
      Except.ok
        { id := ps.name.getD "unknown"
          name := ps.name.getD "Unknown Plugin"
          version := ps.version.getD "0.1.0"
          description := ps.description.getD ""
          author := ps.author.getD ""
          category := categoryOfStr (ps.category.getD "other") }

theorem run_nil (p : AdiosPlugin) : run p [] = p := rfl

theorem run_cons (p : AdiosPlugin) (op : LifecycleOp) (ops : List LifecycleOp) :
    run p (op :: ops) = run (applyOp p op) ops := rfl

/-- Claim C2, as the spec states it, is false on the code: `start()` on a
freshly constructed (never-`init`ed) unit returns `Ok(())`, not a
`StateError`, and sets `active = true` rather than leaving it `false`. -/
theorem c2_counterexample :
    ((AdiosPlugin.new testInfo).start 0).2 = Except.ok () ∧
      ((AdiosPlugin.new testInfo).start 0).1.state.active = true :=
  ⟨rfl, rfl⟩

/-- Claim C2 (amended): `start()` on a freshly constructed unit that was never
`init()`ed returns success (no `StateError` — the code performs no state
check), and the state afterwards is `{initialized: false, active: true,
last_sync: none}` (the sync is skipped because no event-bus handle is
present). -/
theorem c2_start_uninitialized_succeeds (info : PluginInfo) (now : Int) :
    ((AdiosPlugin.new info).start now).2 = Except.ok () ∧
      ((AdiosPlugin.new info).start now).1.state =
        { initialized := false
          active := true
          last_sync := none
          health_status := HealthStatus.Healthy } :=
  ⟨rfl, rfl⟩

/-- Claim C5: after `init()` then `start()` (both succeeding), `last_sync` is
non-`none` even though no `tick()` has occurred: `init` stored the event-bus
handle, so the start-triggered sync stamps `last_sync` with the start time. -/
theorem c5_init_start_stamps_last_sync (info : PluginInfo) (ctx : AppContext)
    (bus : EventBus) (now : Int) :
    ((AdiosPlugin.new info).init ctx bus).2 = Except.ok () ∧
      ((((AdiosPlugin.new info).init ctx bus).1).start now).2 = Except.ok () ∧
      ((((AdiosPlugin.new info).init ctx bus).1).start now).1.state.last_sync
        = some now :=
  ⟨rfl, rfl, rfl⟩

/-- Claim C6: from a state with `active = true`, the first `stop()` returns
success and sets `active = false`; a second `stop()` immediately after also
returns success and leaves the entire plugin value unchanged (`stop` is
idempotent). -/
theorem c6_stop_idempotent (p : AdiosPlugin) (_hactive : p.state.active = true) :
    p.stop.2 = Except.ok () ∧
      p.stop.1.state.active = false ∧
      p.stop.1.stop.2 = Except.ok () ∧
      p.stop.1.stop.1 = p.stop.1 :=
  ⟨rfl, rfl, rfl, rfl⟩

/-- Witness for C6 at a concrete active unit (freshly constructed, then
`init`ed and `start`ed). -/
theorem c6_stop_idempotent_witness :
    (run (AdiosPlugin.new testInfo)
        [LifecycleOp.opInit, LifecycleOp.opStart 3]).state.active = true ∧
      ((run (AdiosPlugin.new testInfo)
          [LifecycleOp.opInit, LifecycleOp.opStart 3]).stop.2 = Except.ok () ∧
        (run (AdiosPlugin.new testInfo)
            [LifecycleOp.opInit, LifecycleOp.opStart 3]).stop.1.state.active
          = false ∧
        (run (AdiosPlugin.new testInfo)
            [LifecycleOp.opInit, LifecycleOp.opStart 3]).stop.1.stop.2
          = Except.ok () ∧
        (run (AdiosPlugin.new testInfo)
            [LifecycleOp.opInit, LifecycleOp.opStart 3]).stop.1.stop.1
          = (run (AdiosPlugin.new testInfo)
              [LifecycleOp.opInit, LifecycleOp.opStart 3]).stop.1) :=
  ⟨rfl, c6_stop_idempotent _ rfl⟩

/-- Claim C8: for every sender id and payload, the base
`handle_plugin_message` returns `Ok({"status": "received"})`; it takes
`&self`, so running it as a lifecycle operation leaves the unit unchanged. -/
theorem c8_handle_message_ack_and_frame (p : AdiosPlugin) (sender : String)
    (msg : JsonValue) :
    p.handle_plugin_message sender msg
        = Except.ok (JsonValue.obj [("status", JsonValue.str "received")]) ∧
      applyOp p (LifecycleOp.opHandleMessage sender msg) = p :=
  ⟨rfl, rfl⟩

/-- Claim C10: `stop()` on a freshly constructed unit (never `init`ed or
`start`ed) returns success — not a `StateError` — and leaves the state
unchanged at `{initialized: false, active: false, last_sync: none}`. -/
theorem c10_stop_uninitialized_noop (info : PluginInfo) :
    (AdiosPlugin.new info).stop.2 = Except.ok () ∧
      (AdiosPlugin.new info).stop.1 = AdiosPlugin.new info ∧
      (AdiosPlugin.new info).state =
        { initialized := false
          active := false
          last_sync := none
          health_status := HealthStatus.Healthy } :=
  ⟨rfl, rfl, rfl⟩

/-- Claim C3, as the spec states it, is false on the code: a state that is
active, holds an event-bus handle and has `last_sync = none` is reachable
(`start` before `init`: `start` sets `active` without stamping because the
bus is absent, then `init` stores the bus without stamping), and `tick()`
there performs no sync — `last_sync` stays `none` — because the code's
`if let Some(last_sync)` skips the `none` case instead of treating it as
due. -/
theorem c3_counterexample :
    (run (AdiosPlugin.new testInfo)
        [LifecycleOp.opStart 0, LifecycleOp.opInit]).state.active = true ∧
      (run (AdiosPlugin.new testInfo)
          [LifecycleOp.opStart 0, LifecycleOp.opInit]).bus = some () ∧
      (run (AdiosPlugin.new testInfo)
          [LifecycleOp.opStart 0, LifecycleOp.opInit]).state.last_sync = none ∧
      ((run (AdiosPlugin.new testInfo)
            [LifecycleOp.opStart 0, LifecycleOp.opInit]).tick 1000).1.state.last_sync
        = none :=
  ⟨rfl, rfl, rfl, rfl⟩

/-- Claim C3 (amended): while the unit is active, a `tick()` invoked when
`last_sync` is `none` performs no sync at all: it returns success and leaves
the plugin (in particular `last_sync = none`) unchanged, whether or not an
event-bus handle is present. `none` is not treated as "due immediately". -/
theorem c3_tick_none_is_noop (p : AdiosPlugin) (now : Int)
    (ha : p.state.active = true) (hl : p.state.last_sync = none) :
    p.tick now = (p, Except.ok ()) := by
  unfold AdiosPlugin.tick
  rw [ha, hl]
  simp

/-- Witness for C3's amended theorem at the concrete reachable state of the
counterexample's trace. -/
theorem c3_tick_none_is_noop_witness :
    (run (AdiosPlugin.new testInfo)
        [LifecycleOp.opStart 0, LifecycleOp.opInit]).state.active = true ∧
      (run (AdiosPlugin.new testInfo)
          [LifecycleOp.opStart 0, LifecycleOp.opInit]).state.last_sync = none ∧
      (run (AdiosPlugin.new testInfo)
          [LifecycleOp.opStart 0, LifecycleOp.opInit]).tick 1000
        = (run (AdiosPlugin.new testInfo)
            [LifecycleOp.opStart 0, LifecycleOp.opInit], Except.ok ()) :=
  ⟨rfl, rfl, c3_tick_none_is_noop _ 1000 rfl rfl⟩

/-- Claim C4: for an active unit holding an event-bus handle with
`last_sync = some T`, a `tick()` at `T + 299` seconds (4 min 59 s) performs
no sync and leaves the plugin unchanged, while a `tick()` at `T + 301`
seconds (5 min 01 s) performs a sync, updating `last_sync` to the tick's
current time and returning success. -/
theorem c4_tick_threshold (p : AdiosPlugin) (T : Int) (u : EventBus)
    (ha : p.state.active = true) (hb : p.bus = some u)
    (hl : p.state.last_sync = some T) :
    p.tick (T + 299) = (p, Except.ok ()) ∧
      (p.tick (T + 301)).1.state.last_sync = some (T + 301) ∧
      (p.tick (T + 301)).2 = Except.ok () := by
  have hno : ¬ ((5 : Int) ≤ AdiosPlugin.num_minutes 299) := by decide
  have hyes : (5 : Int) ≤ AdiosPlugin.num_minutes 301 := by decide
  refine ⟨?_, ?_, ?_⟩
  · unfold AdiosPlugin.tick
    rw [ha, hl]
    simp [hno]
  · unfold AdiosPlugin.tick
    rw [ha, hl]
    simp [hyes, AdiosPlugin.sync_with_ecosystem, hb]
  · unfold AdiosPlugin.tick
    rw [ha, hl]
    simp [hyes, AdiosPlugin.sync_with_ecosystem, hb]

/-- Witness for C4 at a concrete unit (`init` then `start` at time 0, so
`last_sync = some 0`, active, bus present). -/
theorem c4_tick_threshold_witness :
    (run (AdiosPlugin.new testInfo)
        [LifecycleOp.opInit, LifecycleOp.opStart 0]).state.active = true ∧
      (run (AdiosPlugin.new testInfo)
          [LifecycleOp.opInit, LifecycleOp.opStart 0]).bus = some () ∧
      (run (AdiosPlugin.new testInfo)
          [LifecycleOp.opInit, LifecycleOp.opStart 0]).state.last_sync = some 0 ∧
      ((run (AdiosPlugin.new testInfo)
            [LifecycleOp.opInit, LifecycleOp.opStart 0]).tick (0 + 299)
          = (run (AdiosPlugin.new testInfo)
              [LifecycleOp.opInit, LifecycleOp.opStart 0], Except.ok ()) ∧
        ((run (AdiosPlugin.new testInfo)
              [LifecycleOp.opInit, LifecycleOp.opStart 0]).tick (0 + 301)).1.state.last_sync
          = some (0 + 301) ∧
        ((run (AdiosPlugin.new testInfo)
              [LifecycleOp.opInit, LifecycleOp.opStart 0]).tick (0 + 301)).2
          = Except.ok ()) :=
  ⟨rfl, rfl, rfl, c4_tick_threshold _ 0 () rfl rfl rfl⟩

theorem sync_fst_initialized (p : AdiosPlugin) (now : Int) :
    (p.sync_with_ecosystem now).1.state.initialized = p.state.initialized := by
  cases hb : p.bus <;> simp [AdiosPlugin.sync_with_ecosystem, hb]

theorem tick_fst_initialized (p : AdiosPlugin) (now : Int) :
    (p.tick now).1.state.initialized = p.state.initialized := by
  unfold AdiosPlugin.tick
  by_cases ha : p.state.active
  · rw [if_pos ha]
    cases hl : p.state.last_sync with
    | none => rfl
    | some t =>
        dsimp only
        by_cases hd : AdiosPlugin.num_minutes (now - t) ≥ 5
        · rw [if_pos hd]
          cases hb : p.bus <;> simp [AdiosPlugin.sync_with_ecosystem, hb]
        · rw [if_neg hd]
  · rw [if_neg ha]

theorem applyOp_initialized (p : AdiosPlugin) (op : LifecycleOp)
    (h : p.state.initialized = true) :
    (applyOp p op).state.initialized = true := by
  cases op with
  | opInit => rfl
  | opStart now =>
      show ((p.start now).1).state.initialized = true
      unfold AdiosPlugin.start
      cases hb : p.bus <;> simp [AdiosPlugin.sync_with_ecosystem, hb, h]
  | opStop => exact h
  | opTick now =>
      show ((p.tick now).1).state.initialized = true
      rw [tick_fst_initialized]
      exact h
  | opUpdateHealth st => exact h
  | opHandleMessage sender msg => exact h

theorem run_initialized_mono (ops : List LifecycleOp) :
    ∀ p : AdiosPlugin, p.state.initialized = true →
      (run p ops).state.initialized = true := by
  induction ops with
  | nil => intro p h; exact h
  | cons op rest ih =>
      intro p h
      rw [run_cons]
      exact ih (applyOp p op) (applyOp_initialized p op h)

theorem run_active_imp_init_aux (ops : List LifecycleOp) :
    ∀ p : AdiosPlugin, noStartBeforeInit ops = true → p.state.active = false →
      ((run p ops).state.active = true → (run p ops).state.initialized = true) := by
  induction ops with
  | nil =>
      intro p _ ha hact
      rw [run_nil] at hact
      rw [ha] at hact
      exact Bool.noConfusion hact
  | cons op rest ih =>
      intro p hns ha
      cases op with
      | opInit =>
          rw [run_cons]
          intro _
          exact run_initialized_mono rest _ rfl
      | opStart now => exact Bool.noConfusion hns
      | opStop =>
          rw [run_cons]
          exact ih _ hns rfl
      | opTick now =>
          rw [run_cons]
          have hstay : applyOp p (LifecycleOp.opTick now) = p := by
            show (p.tick now).1 = p
            unfold AdiosPlugin.tick
            rw [ha]
            rfl
          rw [hstay]
          exact ih p hns ha
      | opUpdateHealth st =>
          rw [run_cons]
          exact ih _ hns ha
      | opHandleMessage sender msg =>
          rw [run_cons]
          exact ih p hns ha

/-- Claim C1, as the spec states it (over all operation sequences), is false
on the code: from a freshly constructed unit, the single-operation sequence
`[start]` reaches a state with `active = true` and `initialized = false`,
because `start()` sets `active` without checking `initialized`. -/
theorem c1_counterexample :
    (run (AdiosPlugin.new testInfo) [LifecycleOp.opStart 0]).state.active = true ∧
      (run (AdiosPlugin.new testInfo)
          [LifecycleOp.opStart 0]).state.initialized = false :=
  ⟨rfl, rfl⟩

/-- Claim C1 (amended): for every sequence of lifecycle operations from the
freshly constructed unit in which no `start` occurs before the first `init`,
the resulting state never has `active = true` while `initialized = false`
(quantifying over all such sequences covers every intermediate state of a
longer run, since the restriction is closed under prefixes). -/
theorem c1_active_implies_initialized (info : PluginInfo)
    (ops : List LifecycleOp) (hseq : noStartBeforeInit ops = true) :
    (run (AdiosPlugin.new info) ops).state.active = true →
      (run (AdiosPlugin.new info) ops).state.initialized = true :=
  run_active_imp_init_aux ops (AdiosPlugin.new info) hseq rfl

/-- Witness for C1's amended theorem on the concrete sequence
`[init, start, tick, stop]`. -/
theorem c1_active_implies_initialized_witness :
    noStartBeforeInit
        [LifecycleOp.opInit, LifecycleOp.opStart 2, LifecycleOp.opTick 400,
          LifecycleOp.opStop] = true ∧
      ((run (AdiosPlugin.new testInfo)
            [LifecycleOp.opInit, LifecycleOp.opStart 2, LifecycleOp.opTick 400,
              LifecycleOp.opStop]).state.active = true →
        (run (AdiosPlugin.new testInfo)
            [LifecycleOp.opInit, LifecycleOp.opStart 2, LifecycleOp.opTick 400,
              LifecycleOp.opStop]).state.initialized = true) :=
  ⟨rfl, c1_active_implies_initialized testInfo _ rfl⟩

theorem string_append_left_cancel (a s t : String) (h : a ++ s = a ++ t) :
    s = t := by
  have hd := congrArg String.data h
  rw [String.data_append, String.data_append] at hd
  exact String.ext (List.append_cancel_left hd)

theorem warning_ne_healthy (s : String) : "Warning: " ++ s ≠ "Healthy" := by
  intro h
  have hd := congrArg String.data h
  rw [String.data_append] at hd
  simp at hd

theorem error_ne_healthy (s : String) : "Error: " ++ s ≠ "Healthy" := by
  intro h
  have hd := congrArg String.data h
  rw [String.data_append] at hd
  simp at hd

theorem error_ne_warning (s t : String) : "Error: " ++ s ≠ "Warning: " ++ t := by
  intro h
  have hd := congrArg String.data h
  rw [String.data_append, String.data_append] at hd
  simp at hd

/-- Claim C7: `is_healthy()` is true exactly when the current health status is
`Healthy`; `update_health` overwrites the status wholesale (so the current
status is the last one set, `Healthy` when none was ever set, by
construction); and `status()` renders exactly `"Healthy"`,
`"Warning: <reason>"` or `"Error: <reason>"` according to the current
variant — each rendering characterizes its variant. -/
theorem c7_health_reporting (p : AdiosPlugin) (info : PluginInfo)
    (st : HealthStatus) (msg : String) :
    (p.is_healthy = true ↔ p.state.health_status = HealthStatus.Healthy) ∧
      (p.update_health st).state.health_status = st ∧
      (AdiosPlugin.new info).state.health_status = HealthStatus.Healthy ∧
      (p.status = "Healthy" ↔ p.state.health_status = HealthStatus.Healthy) ∧
      (p.status = "Warning: " ++ msg ↔
        p.state.health_status = HealthStatus.Warning msg) ∧
      (p.status = "Error: " ++ msg ↔
        p.state.health_status = HealthStatus.Error msg) := by
  refine ⟨?_, rfl, rfl, ?_, ?_, ?_⟩
  · cases hs : p.state.health_status <;> simp [AdiosPlugin.is_healthy, hs]
  · cases hs : p.state.health_status with
    | Healthy => simp [AdiosPlugin.status, hs]
    | Warning s =>
        simp only [AdiosPlugin.status, hs]
        constructor
        · intro h
          exact absurd h (warning_ne_healthy s)
        · intro h
          cases h
    | Error s =>
        simp only [AdiosPlugin.status, hs]
        constructor
        · intro h
          exact absurd h (error_ne_healthy s)
        · intro h
          cases h
  · cases hs : p.state.health_status with
    | Healthy =>
        simp only [AdiosPlugin.status, hs]
        constructor
        · intro h
          exact absurd h.symm (warning_ne_healthy msg)
        · intro h
          cases h
    | Warning s =>
        simp only [AdiosPlugin.status, hs]
        constructor
        · intro h
          rw [string_append_left_cancel _ _ _ h]
        · intro h
          injection h with h'
          rw [h']
    | Error s =>
        simp only [AdiosPlugin.status, hs]
        constructor
        · intro h
          exact absurd h (error_ne_warning s msg)
        · intro h
          cases h
  · cases hs : p.state.health_status with
    | Healthy =>
        simp only [AdiosPlugin.status, hs]
        constructor
        · intro h
          exact absurd h.symm (error_ne_healthy msg)
        · intro h
          cases h
    | Warning s =>
        simp only [AdiosPlugin.status, hs]
        constructor
        · intro h
          exact absurd h.symm (error_ne_warning msg s)
        · intro h
          cases h
    | Error s =>
        simp only [AdiosPlugin.status, hs]
        constructor
        · intro h
          rw [string_append_left_cancel _ _ _ h]
        · intro h
          injection h with h'
          rw [h']

theorem categoryOfStr_unrecognized (c : String)
    (hrec : c ∉ ["productivity", "development", "enterprise",
      "communication", "wellness", "display"]) :
    categoryOfStr c = PluginCategory.Other := by
  simp only [List.mem_cons, List.not_mem_nil, or_false, not_or] at hrec
  obtain ⟨h1, h2, h3, h4, h5, h6⟩ := hrec
  unfold categoryOfStr
  rw [if_neg h1, if_neg h2, if_neg h3, if_neg h4, if_neg h5, if_neg h6]

/-- Claim C9: parsing a manifest whose `[plugin]` table lacks the `version`
field yields a unit identity with version `"0.1.0"`, and an unrecognized
`category` string maps to the `Other` category without producing an error
(the whole parse succeeds). -/
theorem c9_manifest_defaults (m : Manifest) (ps : PluginManifestSection)
    (c : String) (hps : m.plugin = some ps) (hv : ps.version = none)
    (hc : ps.category = some c)
    (hrec : c ∉ ["productivity", "development", "enterprise",
      "communication", "wellness", "display"]) :
    ∃ info, create_plugin_info_from_manifest m = Except.ok info ∧
      info.version = "0.1.0" ∧ info.category = PluginCategory.Other := by
  unfold create_plugin_info_from_manifest
  rw [hps]
  refine ⟨_, rfl, ?_, ?_⟩
  · dsimp only
    rw [hv]
    rfl
  · dsimp only
    rw [hc]
    exact categoryOfStr_unrecognized c hrec

/-- A concrete `[plugin]` table with no `version` field and an unrecognized
`category` string. -/
def testManifestSection : PluginManifestSection :=
  { name := some "smart-labeling"
    version := none
    description := none
    author := none
    category := some "ai" }

/-- A concrete manifest holding `testManifestSection`. -/
def testManifest : Manifest :=
  { plugin := some testManifestSection }

/-- Witness for C9 at the concrete manifest `testManifest`. -/
theorem c9_manifest_defaults_witness :
    testManifest.plugin = some testManifestSection ∧
      testManifestSection.version = none ∧
      testManifestSection.category = some "ai" ∧
      "ai" ∉ ["productivity", "development", "enterprise", "communication",
        "wellness", "display"] ∧
      ∃ info, create_plugin_info_from_manifest testManifest = Except.ok info ∧
        info.version = "0.1.0" ∧ info.category = PluginCategory.Other :=
  ⟨rfl, rfl, rfl, by decide,
    c9_manifest_defaults testManifest testManifestSection "ai" rfl rfl rfl
      (by decide)⟩

end Adios
